import Mathlib

/-!
Verification development for the drop-domain analyzer service.

The definitions below are a shallow embedding of the Python sources:
the task data model and status enum from app/models/analysis_models.py,
the report filter from app/api/endpoints/reports.py and
app/models/reports/report_models.py, the snapshot-metrics analyzer from
app/services/wayback_service.py, and the task orchestration and SSE
status stream from app/api/endpoints/analysis.py.

Machine reals (Python floats) are modelled as rationals, Python ints as
Lean integers or naturals, fallible Python code as Except, and optional
or nullable values as Option.
-/

namespace DropAnalyzer

/-- Task status enum from app/models/analysis_models.py (AnalysisTaskStatus). -/
inductive AnalysisTaskStatus where
  | pending
  | processing
  | completed
  | failed
deriving DecidableEq, Repr

/-- A Python float value as it appears in the filter computations: either a
finite value (modelled as a rational) or positive infinity, the result of
float inf used as a fallback for missing metrics. -/
inductive PyFloat where
  | fin (q : ℚ)
  | inf
deriving DecidableEq, Repr

/-- Python comparison le on the PyFloat domain. -/
def PyFloat.le : PyFloat → PyFloat → Bool
  | .fin a, .fin b => decide (a ≤ b)
  | .fin _, .inf => true
  | .inf, .inf => true
  | .inf, .fin _ => false

/-- FilterCriteria from app/models/reports/report_models.py. -/
structure FilterCriteria where
  min_snapshots : Int
  min_years : Int
  max_avg_interval : ℚ
  max_gap : Int
  min_timemap : Int
deriving DecidableEq, Repr

/-- The default thresholds of FilterCriteria: 5 snapshots, 3 years,
90 days average interval, 180 days maximum gap, 200 timemap entries. -/
def defaultFilterCriteria : FilterCriteria :=
  ⟨5, 3, 90, 180, 200⟩

/-- The wayback summary dict built by
WaybackService.get_domain_history_summary.  The snapshots_per_year entry,
a Python str of a dict in the source, is kept structured as a
year-to-count association list (insertion order is first occurrence). -/
structure WaybackSummary where
  first_snapshot_date : Option String
  last_snapshot_date : Option String
  total_snapshots : Nat
  error : Option String
  has_snapshot : Bool
  first_snapshot : Option String
  last_snapshot : Option String
  avg_interval_days : Option ℚ
  max_gap_days : Option Int
  years_covered : Option Nat
  snapshots_per_year : Option (List (Nat × Nat))
  unique_versions : Option Nat
  is_good : Bool
  recommended : Bool
  timemap_count : Nat
deriving DecidableEq, Repr

/-- The initial summary dict of get_domain_history_summary before any
field is filled in. -/
def emptySummary : WaybackSummary :=
  { first_snapshot_date := none
    last_snapshot_date := none
    total_snapshots := 0
    error := none
    has_snapshot := false
    first_snapshot := none
    last_snapshot := none
    avg_interval_days := none
    max_gap_days := none
    years_covered := none
    snapshots_per_year := none
    unique_versions := none
    is_good := false
    recommended := false
    timemap_count := 0 }

/-- The wayback_history_summary field of a DomainAnalysisResult: either the
full summary dict produced by the wayback service, or the bare error dict
built in the except branch of run_domain_analysis_background. -/
inductive HistorySummary where
  | full (s : WaybackSummary)
  | errorDict (msg : String)
deriving DecidableEq, Repr

/-- The thematic_analysis_result field: an opaque successful payload or an
error dict.  Its internal structure is irrelevant to the claims. -/
inductive ThematicOutcome where
  | payload (s : String)
  | errorDict (msg : String)
deriving DecidableEq, Repr

/-- DomainAnalysisResult from app/models/analysis_models.py, restricted to
the fields the orchestration and the filters read.  Every metric field is
Optional with default None in the pydantic model, hence Option here; a
model_dump of the record contains every field, None values included. -/
structure DomainAnalysisResult where
  domain_name : String
  wayback_history_summary : Option HistorySummary
  thematic_analysis_result : Option ThematicOutcome
  has_snapshot : Option Bool
  total_snapshots : Option Int
  timemap_count : Option Int
  first_snapshot : Option String
  last_snapshot : Option String
  avg_interval_days : Option ℚ
  max_gap_days : Option Int
  years_covered : Option Int
  snapshots_per_year : Option (List (Nat × Nat))
  unique_versions : Option Int
  is_good : Option Bool
  recommended : Option Bool
deriving DecidableEq, Repr

/-- Python get with a falsy-coalescing `or d` applied on top, for an int
valued field whose key is always present: None or 0 both fall back to d. -/
def getOrFalsyInt (x : Option Int) (d : Int) : Int :=
  match x with
  | none => d
  | some v => if v = 0 then d else v

/-- Python get with fallback float inf and a falsy-coalescing `or` on top:
None and 0 both become infinity. -/
def getOrFalsyFloat (x : Option ℚ) : PyFloat :=
  match x with
  | none => .inf
  | some v => if v = 0 then .inf else .fin v

/-- apply_filter_criteria from app/api/endpoints/reports.py.  The guard on
an empty dict is omitted: a dumped DomainAnalysisResult always carries its
domain_name key, so the dict is never empty. -/
def apply_filter_criteria (domain_data : DomainAnalysisResult)
    (criteria : FilterCriteria) : Bool :=
  let total_snapshots := getOrFalsyInt domain_data.total_snapshots 0
  let years_covered := getOrFalsyInt domain_data.years_covered 0
  let avg_interval_days := getOrFalsyFloat domain_data.avg_interval_days
  let max_gap_days := getOrFalsyFloat (domain_data.max_gap_days.map (fun n => (n : ℚ)))
  let timemap_count := getOrFalsyInt domain_data.timemap_count 0
  decide (total_snapshots ≥ criteria.min_snapshots) &&
  decide (years_covered ≥ criteria.min_years) &&
  PyFloat.le avg_interval_days (.fin criteria.max_avg_interval) &&
  PyFloat.le max_gap_days (.fin (criteria.max_gap : ℚ)) &&
  decide (timemap_count ≥ criteria.min_timemap)

/-- A Python int comparison x ge y where x may be None: comparing None with
an int raises a TypeError, modelled as Except.error. -/
def pyGeNoneInt (x : Option Int) (y : Int) : Except String Bool :=
  match x with
  | none => .error "TypeError: ge not supported between NoneType and int"
  | some v => .ok (decide (v ≥ y))

/-- The long-live shortcut filter applied to one result inside
get_task_report (and download_report) in app/api/endpoints/analysis.py.
The keys are always present in a dumped result, so the get defaults 0 and
float inf are dead and the raw Option values are compared.  The and chain
short-circuits exactly as in Python. -/
def longLiveFilter (result : DomainAnalysisResult) : Except String Bool := do
  let b1 ← pyGeNoneInt result.total_snapshots 5
  if b1 then
    let b2 ← pyGeNoneInt result.years_covered 3
    if b2 then
      match result.avg_interval_days with
      | none => pure false
      | some avg =>
        if avg < 90 then
          match result.max_gap_days with
          | none => pure false
          | some mg => pure (decide (mg < 180))
        else
          pure false
    else
      pure false
  else
    pure false

/-- One CDX snapshot record as consumed by blocking_cdx_api_check: a raw
timestamp string and an optional content digest (hasattr digest).  The
archive_url attribute is only copied into presentational fields and is
omitted. -/
structure Snapshot where
  timestamp : String
  digest : Option String
deriving DecidableEq, Repr

/-- Leap year rule of the proleptic Gregorian calendar, as used by the
Python datetime module. -/
def isLeapYear (y : Nat) : Bool :=
  (y % 4 == 0 && y % 100 != 0) || (y % 400 == 0)

/-- Number of days in a month of a given year. -/
def daysInMonth (y m : Nat) : Nat :=
  if m = 2 then (if isLeapYear y then 29 else 28)
  else if m = 4 ∨ m = 6 ∨ m = 9 ∨ m = 11 then 30
  else 31

/-- A parsed datetime, the result of datetime.strptime on a wayback
timestamp with format %Y%m%d%H%M%S. -/
structure DateTime14 where
  year : Nat
  month : Nat
  day : Nat
  hour : Nat
  minute : Nat
  second : Nat
deriving DecidableEq, Repr

/-- Value of a list of decimal digit characters. -/
def parseDigits (cs : List Char) : Nat :=
  cs.foldl (fun acc c => acc * 10 + (c.toNat - 48)) 0

/-- datetime.strptime(ts, %Y%m%d%H%M%S): the canonical wayback timestamp
is 14 decimal digits; the parse succeeds exactly when the string has that
shape and every field is in range, and raises ValueError (modelled as
none) otherwise. -/
def strptime14 (s : String) : Option DateTime14 :=
  let cs := s.data
  if cs.length = 14 ∧ (∀ c ∈ cs, c.isDigit = true) then
    let year := parseDigits (cs.take 4)
    let month := parseDigits ((cs.drop 4).take 2)
    let day := parseDigits ((cs.drop 6).take 2)
    let hour := parseDigits ((cs.drop 8).take 2)
    let minute := parseDigits ((cs.drop 10).take 2)
    let second := parseDigits ((cs.drop 12).take 2)
    if 1 ≤ year ∧ 1 ≤ month ∧ month ≤ 12 ∧ 1 ≤ day ∧ day ≤ daysInMonth year month ∧
        hour ≤ 23 ∧ minute ≤ 59 ∧ second ≤ 59 then
      some ⟨year, month, day, hour, minute, second⟩
    else
      none
  else
    none

/-- Julian day number of a Gregorian date with year at least 1, via the
standard arithmetic formula; differences of day numbers are exactly the
day differences the Python datetime subtraction produces. -/
def DateTime14.julianDay (dt : DateTime14) : Nat :=
  let a := (14 - dt.month) / 12
  let y := dt.year + 4800 - a
  let m := dt.month + 12 * a - 3
  dt.day + (153 * m + 2) / 5 + 365 * y + y / 4 - y / 100 + y / 400 - 32045

/-- Seconds-since-a-fixed-origin encoding of a datetime; subtracting two
encodings and floor-dividing by 86400 models (d2 - d1).days of the Python
timedelta. -/
def DateTime14.toSeconds (dt : DateTime14) : Nat :=
  dt.julianDay * 86400 + dt.hour * 3600 + dt.minute * 60 + dt.second

/-- A natural number printed in decimal and left-padded with zeros. -/
def pad (width n : Nat) : String :=
  let s := toString n
  (List.replicate (width - s.length) (Char.ofNat 48)).asString ++ s

/-- datetime.isoformat for a datetime with zero microseconds. -/
def DateTime14.isoformat (dt : DateTime14) : String :=
  pad 4 dt.year ++ "-" ++ pad 2 dt.month ++ "-" ++ pad 2 dt.day ++ "T" ++
    pad 2 dt.hour ++ ":" ++ pad 2 dt.minute ++ ":" ++ pad 2 dt.second

/-- The days attribute of the difference of two consecutive sorted
datetimes, for each consecutive pair of the encoded list. -/
def consecutiveGaps : List Nat → List Int
  | a :: b :: rest => ((b : Int) - (a : Int)).fdiv 86400 :: consecutiveGaps (b :: rest)
  | _ => []

/-- Python max over a list of ints, none when the list is empty. -/
def listMaxInt : List Int → Option Int
  | [] => none
  | h :: t => some (t.foldl max h)

/-- The result dict built by blocking_cdx_api_check on the path where at
least one snapshot exists. -/
structure CdxMetrics where
  total_snapshots : Nat
  oldest_timestamp : String
  newest_timestamp : String
  avg_interval_days : Option ℚ
  max_gap_days : Option Int
  years_covered : Nat
  snapshots_per_year : List (Nat × Nat)
  unique_versions : Nat
  timemap_count : Nat
deriving DecidableEq, Repr

/-- The datetimes of the snapshots whose timestamps parse, in list
order: malformed timestamps are skipped with a warning. -/
def parsedDates (snapshots : List Snapshot) : List DateTime14 :=
  snapshots.filterMap (fun s => strptime14 s.timestamp)

/-- The parsed datetime list after the in-place ascending sort of the
source (datetimes compare by their encoded seconds). -/
def sortedParsedDates (snapshots : List Snapshot) : List DateTime14 :=
  List.insertionSort (fun a b => a.toSeconds ≤ b.toSeconds) (parsedDates snapshots)

/-- The seconds encodings of the parseable snapshot timestamps, sorted
ascending exactly as the analyzer sorts them. -/
def sortedParsedSeconds (snapshots : List Snapshot) : List Nat :=
  (sortedParsedDates snapshots).map DateTime14.toSeconds

/-- The consecutive day gaps the analyzer derives for a snapshot list. -/
def gapList (snapshots : List Snapshot) : List Int :=
  consecutiveGaps (sortedParsedSeconds snapshots)

/-- The distinct-years list (set iteration order is first occurrence in
the sorted date order). -/
def yearsList (snapshots : List Snapshot) : List Nat :=
  ((sortedParsedDates snapshots).map DateTime14.year).dedup

/-- The digests the loop collects: a digest is taken only when the same
snapshot record also had a parseable timestamp, because the digest access
sits after the strptime call inside the same try block. -/
def digestsList (snapshots : List Snapshot) : List String :=
  snapshots.filterMap (fun s => (strptime14 s.timestamp).bind (fun _ => s.digest))

/-- blocking_cdx_api_check from WaybackService.get_domain_history_summary,
given the snapshot list the CDX API returned.  The early return of the
message dict for an empty snapshot list is modelled as none. -/
def blocking_cdx_api_check (snapshots : List Snapshot) : Option CdxMetrics :=
  match snapshots with
  | [] => none
  | oldest :: rest =>
    let intervals := gapList (oldest :: rest)
    let years := yearsList (oldest :: rest)
    some
      { total_snapshots := (oldest :: rest).length
        oldest_timestamp := oldest.timestamp
        newest_timestamp := (rest.getLastD oldest).timestamp
        avg_interval_days :=
          if intervals.isEmpty then none
          else some (mkRat intervals.sum intervals.length)
        max_gap_days := listMaxInt intervals
        years_covered := years.length
        snapshots_per_year :=
          years.map
            (fun y => (y, ((sortedParsedDates (oldest :: rest)).filter (fun d => d.year == y)).length))
        unique_versions := (digestsList (oldest :: rest)).dedup.length
        timemap_count := (oldest :: rest).length }

/-- Round-half-to-even on rationals, the rounding mode of the Python
round builtin (the embedding works on exact rationals in place of binary
floats).  Written on the numerator and denominator with integer
arithmetic so that it evaluates by kernel reduction: f is the floor and
r the nonnegative remainder, and the fractional part r over d is
compared with one half. -/
def roundHalfEven (q : ℚ) : ℤ :=
  let n := q.num
  let d := (q.den : ℤ)
  let f := Int.fdiv n d
  let r := n - f * d
  if 2 * r < d then f
  else if d < 2 * r then f + 1
  else if f % 2 = 0 then f
  else f + 1

/-- round(x, 2) of the Python round builtin.  The scaling by 100 and the
final division are spelled with mkRat on raw numerator and denominator,
which is exact rational arithmetic that the kernel can evaluate. -/
def pyRound2 (q : ℚ) : ℚ :=
  mkRat (roundHalfEven (mkRat (q.num * 100) q.den)) 100

/-- The summary dict get_domain_history_summary builds from a successful
CDX result: presentational fields filled, average interval rounded to two
decimals, and the is_good and recommended flags computed from the summary
values. -/
def buildSummary (cdx : CdxMetrics) : WaybackSummary :=
  let first_iso :=
    match strptime14 cdx.oldest_timestamp with
    | some dt => dt.isoformat
    | none => cdx.oldest_timestamp
  let last_iso :=
    match strptime14 cdx.newest_timestamp with
    | some dt => dt.isoformat
    | none => cdx.newest_timestamp
  let avg := cdx.avg_interval_days.map pyRound2
  { emptySummary with
    has_snapshot := true
    first_snapshot_date := some cdx.oldest_timestamp
    first_snapshot := some first_iso
    last_snapshot_date := some cdx.newest_timestamp
    last_snapshot := some last_iso
    total_snapshots := cdx.total_snapshots
    avg_interval_days := avg
    max_gap_days := cdx.max_gap_days
    years_covered := some cdx.years_covered
    snapshots_per_year := some cdx.snapshots_per_year
    unique_versions := some cdx.unique_versions
    timemap_count := cdx.timemap_count
    is_good := decide (cdx.total_snapshots ≥ 1) &&
      (match cdx.max_gap_days with
       | some g => decide (g < 365)
       | none => false)
    recommended := decide (cdx.total_snapshots ≥ 200) &&
      (match avg with
       | some a => decide (a < 30)
       | none => false) }

/-- Outcome of the wayback CDX interaction for one domain: either the
snapshot list the API returned, or an exception raised inside the
blocking check (network failure and the like), whose message becomes the
error field. -/
inductive FetchOutcome where
  | snapshots (l : List Snapshot)
  | failure (msg : String)
deriving DecidableEq, Repr

/-- WaybackService.get_domain_history_summary.  When waybackpy is not
importable the summary only carries the install-hint error.  When the CDX
check returns the no-snapshots message dict (no error key), the code
takes the success branch and sets has_snapshot to true while every other
field keeps its default. -/
def get_domain_history_summary (waybackpyAvailable : Bool)
    (outcome : FetchOutcome) : WaybackSummary :=
  if waybackpyAvailable then
    match outcome with
    | .failure msg => { emptySummary with error := some msg }
    | .snapshots l =>
      match blocking_cdx_api_check l with
      | none => { emptySummary with has_snapshot := true }
      | some cdx => buildSummary cdx
  else
    { emptySummary with
      error := some "waybackpy library is not installed. Please install it using: pip install waybackpy==3.0.6" }

/-- One entry of the in-memory task store fake_tasks_db, restricted to the
keys the endpoints read.  Timestamps are abstracted as a monotone counter
standing for datetime.utcnow().isoformat(). -/
structure TaskRecord where
  task_id : String
  status : AnalysisTaskStatus
  message : String
  created_at : Nat
  updated_at : Nat
  domains_submitted : List String
  results : List DomainAnalysisResult
deriving DecidableEq, Repr

/-- create_analysis_task from app/api/endpoints/analysis.py: pydantic
validation of AnalysisTaskCreate imposes no minimum length on the domains
list, so every list is accepted and a PENDING record is stored. -/
def create_analysis_task (task_id : String) (now : Nat)
    (domains : List String) : TaskRecord :=
  { task_id := task_id
    status := .pending
    message := "Task received and queued for processing."
    created_at := now
    updated_at := now
    domains_submitted := domains
    results := [] }

/-- The task store as an association list; create_analysis_task inserts
the new record. -/
def createTaskInDb (db : List (String × TaskRecord)) (task_id : String)
    (now : Nat) (domains : List String) : List (String × TaskRecord) :=
  (task_id, create_analysis_task task_id now domains) :: db

/-- What processing one domain inside the background loop did: either
process_single_domain returned a wayback summary (with the enrichment
outcome attached), or it raised and the except branch builds a bare error
result. -/
inductive DomainOutcome where
  | success (summary : WaybackSummary) (thematic : ThematicOutcome)
  | raised (msg : String)
deriving DecidableEq, Repr

/-- process_single_domain from app/api/endpoints/analysis.py on the
non-raising path: every metric field of the result is copied out of the
wayback summary dict with the get defaults of the source. -/
def process_single_domain (domain_name : String) (wayback : WaybackSummary)
    (thematic : ThematicOutcome) : DomainAnalysisResult :=
  { domain_name := domain_name
    wayback_history_summary := some (.full wayback)
    thematic_analysis_result := some thematic
    has_snapshot := some wayback.has_snapshot
    total_snapshots := some (wayback.total_snapshots : Int)
    timemap_count := some (wayback.timemap_count : Int)
    first_snapshot := wayback.first_snapshot
    last_snapshot := wayback.last_snapshot
    avg_interval_days := wayback.avg_interval_days
    max_gap_days := wayback.max_gap_days
    years_covered := wayback.years_covered.map Int.ofNat
    snapshots_per_year := wayback.snapshots_per_year
    unique_versions := wayback.unique_versions.map Int.ofNat
    is_good := some wayback.is_good
    recommended := some wayback.recommended }

/-- The except branch of the background loop: a result carrying only the
domain name and error dicts, every other pydantic field left at its
default None. -/
def failureResult (domain_name msg : String) : DomainAnalysisResult :=
  { domain_name := domain_name
    wayback_history_summary := some (.errorDict ("Failed to process: " ++ msg))
    thematic_analysis_result := some (.errorDict ("Failed to process: " ++ msg))
    has_snapshot := none
    total_snapshots := none
    timemap_count := none
    first_snapshot := none
    last_snapshot := none
    avg_interval_days := none
    max_gap_days := none
    years_covered := none
    snapshots_per_year := none
    unique_versions := none
    is_good := none
    recommended := none }

/-- The result the background loop appends for one domain. -/
def resultForDomain (domain_name : String) : DomainOutcome → DomainAnalysisResult
  | .success s t => process_single_domain domain_name s t
  | .raised msg => failureResult domain_name msg

/-- The progress message the loop writes before processing domain i of n
(i zero-based in the source enumerate). -/
def progressMsg (i n : Nat) (domain_name : String) : String :=
  "Processing domain " ++ toString (i + 1) ++ "/" ++ toString n ++ ": " ++ domain_name

/-- The sequence of task states the progress updates of the background
loop produce, one per domain, in order. -/
def progressStates (n : Nat) : TaskRecord → Nat → List (String × DomainOutcome) → List TaskRecord
  | _, _, [] => []
  | cur, i, (domain_name, _) :: rest =>
    let nxt := { cur with
      message := progressMsg i n domain_name
      updated_at := cur.updated_at + 1 }
    nxt :: progressStates n nxt (i + 1) rest

/-- The final mutation of run_domain_analysis_background: status
COMPLETED, results filled, completion message. -/
def finishState (cur : TaskRecord) (results : List DomainAnalysisResult) : TaskRecord :=
  { cur with
    status := .completed
    results := results
    message := "Task completed successfully."
    updated_at := cur.updated_at + 1 }

/-- The first mutation of run_domain_analysis_background: status
PROCESSING and the start message. -/
def startState (task0 : TaskRecord) : TaskRecord :=
  { task0 with
    status := .processing
    message := "Task processing has started."
    updated_at := task0.updated_at + 1 }

/-- Every state the stored task passes through, from creation through
run_domain_analysis_background: the PENDING record, the PROCESSING start
update, one message update per domain, and the COMPLETED final update.
The per-domain outcomes stand for the awaited service calls. -/
def taskLifecycleStates (task0 : TaskRecord)
    (domains : List (String × DomainOutcome)) : List TaskRecord :=
  (task0 :: startState task0 ::
      progressStates domains.length (startState task0) 0 domains) ++
    [finishState
      ((progressStates domains.length (startState task0) 0 domains).getLastD
        (startState task0))
      (domains.map (fun p => resultForDomain p.1 p.2))]

/-- The net effect of run_domain_analysis_background on the stored task:
the last state of the lifecycle. -/
def run_domain_analysis_background (task0 : TaskRecord)
    (domains : List (String × DomainOutcome)) : TaskRecord :=
  (taskLifecycleStates task0 domains).getLastD task0

/-- The status snapshot json the SSE generator serializes on each poll:
task_id is constant per stream and is omitted; equality of snapshots is
equality of the serialized fields. -/
structure StatusView where
  status : AnalysisTaskStatus
  message : String
  updated_at : Nat
deriving DecidableEq, Repr

/-- Whether a status is terminal for the stream loop. -/
def AnalysisTaskStatus.isTerminal : AnalysisTaskStatus → Bool
  | .completed => true
  | .failed => true
  | _ => false

/-- One server-sent event: a plain data event or the complete-tagged
final event. -/
inductive SseEvent where
  | data (v : StatusView)
  | complete (v : StatusView)
deriving DecidableEq, Repr

/-- sse_task_status_generator from app/api/endpoints/analysis.py over the
sequence of snapshots its polls observe, threading the
last_sent_status_json variable: a data event is emitted only when the
snapshot differs from the last emitted one; on a terminal snapshot the
complete event is emitted and the loop breaks; an exhausted poll list
models the client disconnecting, which ends the stream with no further
emission. -/
def sseEvents (last : Option StatusView) : List StatusView → List SseEvent
  | [] => []
  | v :: rest =>
    let emitted := if last = some v then [] else [SseEvent.data v]
    if v.status.isTerminal then emitted ++ [SseEvent.complete v]
    else emitted ++ sseEvents (some v) rest

/-- The snapshots actually emitted as data events, threading the same
last-sent state. -/
def emittedViews (last : Option StatusView) : List StatusView → List StatusView
  | [] => []
  | v :: rest =>
    let kept := if last = some v then [] else [v]
    if v.status.isTerminal then kept
    else kept ++ emittedViews (some v) rest

/-- A list with its consecutive duplicates collapsed, seeded with the
previously seen element. -/
def dedupConsFrom (last : Option StatusView) : List StatusView → List StatusView
  | [] => []
  | v :: rest =>
    if last = some v then dedupConsFrom (some v) rest
    else v :: dedupConsFrom (some v) rest

/-- Consecutive-duplicate collapse of a poll sequence. -/
def dedupCons (l : List StatusView) : List StatusView :=
  dedupConsFrom none l

/-- No two consecutive elements are equal. -/
def consecDistinct : List StatusView → Bool
  | a :: b :: rest => !(a == b) && consecDistinct (b :: rest)
  | _ => true

instance : IsTotal DateTime14 (fun a b => a.toSeconds ≤ b.toSeconds) :=
  ⟨fun a b => Nat.le_total a.toSeconds b.toSeconds⟩

instance : IsTrans DateTime14 (fun a b => a.toSeconds ≤ b.toSeconds) :=
  ⟨fun _ _ _ h₁ h₂ => Nat.le_trans h₁ h₂⟩

/-- A result whose average interval and maximum gap sit exactly on the
default thresholds (90 and 180), with the other metrics comfortably
inside them. -/
def boundaryResult : DomainAnalysisResult :=
  { domain_name := "boundary.example"
    wayback_history_summary := none
    thematic_analysis_result := none
    has_snapshot := some true
    total_snapshots := some 6
    timemap_count := some 250
    first_snapshot := none
    last_snapshot := none
    avg_interval_days := some 90
    max_gap_days := some 180
    years_covered := some 4
    snapshots_per_year := none
    unique_versions := none
    is_good := some true
    recommended := some false }

end DropAnalyzer

namespace DropAnalyzer

/-- A list with at most one element has no consecutive gaps. -/
theorem consecutiveGaps_eq_nil : ∀ {l : List Nat}, l.length ≤ 1 → consecutiveGaps l = []
  | [], _ => rfl
  | [_], _ => rfl
  | _ :: _ :: _, h => by simp [List.length_cons] at h

/-- The gap list is one shorter than the point list. -/
theorem consecutiveGaps_length : ∀ (l : List Nat), (consecutiveGaps l).length = l.length - 1
  | [] => rfl
  | [_] => rfl
  | a :: b :: t => by
    have ih := consecutiveGaps_length (b :: t)
    simp only [consecutiveGaps, List.length_cons] at ih ⊢
    omega

/-- The sorted parsed dates are as many as the parsed dates. -/
theorem sortedParsedDates_length (snaps : List Snapshot) :
    (sortedParsedDates snaps).length = (parsedDates snaps).length :=
  List.length_insertionSort _ _

/-- When every timestamp is malformed nothing parses. -/
theorem parsedDates_eq_nil {snaps : List Snapshot}
    (h : ∀ s ∈ snaps, strptime14 s.timestamp = none) : parsedDates snaps = [] := by
  induction snaps with
  | nil => rfl
  | cons a l ih =>
    simp only [parsedDates, List.filterMap_cons, h a (List.mem_cons_self a l)]
    exact ih fun s hs => h s (List.mem_cons_of_mem a hs)

/-- When no snapshot contributes a digest the digest list is empty. -/
theorem digestsList_eq_nil {snaps : List Snapshot}
    (h : ∀ s ∈ snaps, (strptime14 s.timestamp).bind (fun _ => s.digest) = none) :
    digestsList snaps = [] := by
  induction snaps with
  | nil => rfl
  | cons a l ih =>
    simp only [digestsList, List.filterMap_cons, h a (List.mem_cons_self a l)]
    exact ih fun s hs => h s (List.mem_cons_of_mem a hs)

/-- Claim C2 counterexample: for a history with exactly one parseable
snapshot the analyzer reports total_snapshots equal to one and an
undefined maximum gap, yet is_good is false, not true as the claim
states: the gap condition is not treated as vacuously satisfied. -/
theorem single_snapshot_is_good_false_cex :
    (get_domain_history_summary true (.snapshots [⟨"20200101000000", none⟩])).total_snapshots = 1 ∧
    (get_domain_history_summary true (.snapshots [⟨"20200101000000", none⟩])).max_gap_days = none ∧
    (get_domain_history_summary true (.snapshots [⟨"20200101000000", none⟩])).is_good = false := by
  decide

/-- Claim C2 (amended): for any history consisting of a single snapshot,
total_snapshots is one, max_gap_days is undefined, and is_good is false,
because the is_good condition requires max_gap_days to be defined and
below 365 and is not vacuously satisfied. -/
theorem single_snapshot_not_good (s : Snapshot) :
    (get_domain_history_summary true (.snapshots [s])).total_snapshots = 1 ∧
    (get_domain_history_summary true (.snapshots [s])).max_gap_days = none ∧
    (get_domain_history_summary true (.snapshots [s])).is_good = false := by
  have hgap : gapList [s] = [] := by
    unfold gapList sortedParsedSeconds sortedParsedDates parsedDates
    cases h : strptime14 s.timestamp <;>
      simp [h, List.filterMap_cons, List.insertionSort, List.orderedInsert, consecutiveGaps]
  unfold get_domain_history_summary blocking_cdx_api_check
  simp [hgap, buildSummary, listMaxInt, emptySummary]

/-- Claim C3 counterexample: a result whose average interval equals the
default max_avg_interval of 90 exactly and whose maximum gap equals the
default max_gap of 180 exactly is included by the general report filter,
not excluded: the code compares with le, not with strict lt. -/
theorem filter_includes_boundary_equality_cex :
    apply_filter_criteria boundaryResult defaultFilterCriteria = true ∧
    boundaryResult.avg_interval_days = some 90 ∧
    boundaryResult.max_gap_days = some 180 := by
  decide

/-- The falsy-coalesced int comparison succeeds exactly on a present
value at least the positive threshold. -/
theorem getOrFalsyInt_ge (x : Option Int) (c : Int) (hc : 0 < c) :
    (c ≤ getOrFalsyInt x 0) ↔ ∃ v, x = some v ∧ c ≤ v := by
  cases x with
  | none => simp [getOrFalsyInt]; omega
  | some v => by_cases hv : v = 0 <;> simp [getOrFalsyInt, hv]

/-- The falsy-coalesced float comparison succeeds exactly on a present,
nonzero value at most the threshold. -/
theorem getOrFalsyFloat_le (x : Option ℚ) (c : ℚ) :
    (PyFloat.le (getOrFalsyFloat x) (.fin c) = true) ↔
      ∃ v, x = some v ∧ v ≠ 0 ∧ v ≤ c := by
  cases x with
  | none => simp [getOrFalsyFloat, PyFloat.le]
  | some v => by_cases hv : v = 0 <;> simp [getOrFalsyFloat, PyFloat.le, hv]

/-- Claim C3 (amended): under the default thresholds the general report
filter includes a result precisely when every metric is present with
total_snapshots at least 5, years_covered at least 3, avg_interval_days
nonzero and at most 90, max_gap_days nonzero and at most 180, and
timemap_count at least 200: the interval and gap comparisons are
non-strict, so values exactly at the thresholds are included, and a zero
value is treated like a missing one by the falsy or-coalescing. -/
theorem apply_filter_criteria_default_iff (d : DomainAnalysisResult) :
    apply_filter_criteria d defaultFilterCriteria = true ↔
      ((∃ t, d.total_snapshots = some t ∧ 5 ≤ t) ∧
       (∃ y, d.years_covered = some y ∧ 3 ≤ y) ∧
       (∃ a, d.avg_interval_days = some a ∧ a ≠ 0 ∧ a ≤ 90) ∧
       (∃ g, d.max_gap_days = some g ∧ g ≠ 0 ∧ g ≤ 180) ∧
       (∃ m, d.timemap_count = some m ∧ 200 ≤ m)) := by
  unfold apply_filter_criteria defaultFilterCriteria
  simp only [ge_iff_le, Bool.and_eq_true, decide_eq_true_eq]
  rw [getOrFalsyInt_ge _ 5 (by norm_num), getOrFalsyInt_ge _ 3 (by norm_num),
    getOrFalsyInt_ge _ 200 (by norm_num), getOrFalsyFloat_le, getOrFalsyFloat_le]
  constructor
  · rintro ⟨⟨⟨⟨ht, hy⟩, ha⟩, hg⟩, hm⟩
    refine ⟨ht, hy, ha, ?_, hm⟩
    obtain ⟨v, hv, hv0, hvle⟩ := hg
    cases hmg : d.max_gap_days with
    | none => rw [hmg] at hv; simp at hv
    | some g =>
      rw [hmg] at hv
      obtain rfl : (g : ℚ) = v := by injection hv
      refine ⟨g, rfl, ?_, ?_⟩
      · exact_mod_cast hv0
      · exact_mod_cast hvle
  · rintro ⟨ht, hy, ha, ⟨g, hg, hg0, hgle⟩, hm⟩
    refine ⟨⟨⟨⟨ht, hy⟩, ha⟩, ?_⟩, hm⟩
    refine ⟨(g : ℚ), by rw [hg]; simp, ?_, ?_⟩
    · exact_mod_cast hg0
    · exact_mod_cast hgle

/-- Claim C4: evaluating the two filter paths on a per-domain-failure
result, whose metric fields are all None.  The general report filter
returns false without error, but the long-live shortcut filter raises a
TypeError when it compares the None total_snapshots with 5; by contrast a
successfully processed domain with no snapshots is excluded by both paths
without error. -/
theorem longlive_filter_raises_on_failure_result :
    longLiveFilter (failureResult "broken.example" "boom") =
      .error "TypeError: ge not supported between NoneType and int" ∧
    apply_filter_criteria (failureResult "broken.example" "boom") defaultFilterCriteria = false ∧
    longLiveFilter (process_single_domain "nosnapshots.example"
      (get_domain_history_summary true (.snapshots []))
      (.errorDict "OpenRouter API key not configured. Skipping thematic analysis.")) = .ok false ∧
    apply_filter_criteria (process_single_domain "nosnapshots.example"
      (get_domain_history_summary true (.snapshots []))
      (.errorDict "OpenRouter API key not configured. Skipping thematic analysis."))
      defaultFilterCriteria = false :=
  ⟨rfl, by decide, rfl, by decide⟩

/-- Claim C6 counterexample: submitting an empty domain list is not
rejected: the task store grows by one record whose status is PENDING with
empty results, instead of failing with a ValidationError. -/
theorem empty_domains_accepted_cex :
    (createTaskInDb [] "task-1" 0 []).length = 1 ∧
    (create_analysis_task "task-1" 0 []).status = .pending ∧
    (create_analysis_task "task-1" 0 []).results = [] := by
  decide

/-- Claim C6 (amended): submission accepts every domain list, the empty
list included, because the pydantic model puts no minimum length on the
domains field; in every case a task record with initial status PENDING,
the submitted domains and empty results is stored. -/
theorem create_task_always_pending (db : List (String × TaskRecord))
    (task_id : String) (now : Nat) (domains : List String) :
    createTaskInDb db task_id now domains =
      (task_id, create_analysis_task task_id now domains) :: db ∧
    (create_analysis_task task_id now domains).status = .pending ∧
    (create_analysis_task task_id now domains).domains_submitted = domains ∧
    (create_analysis_task task_id now domains).results = [] :=
  ⟨rfl, rfl, rfl, rfl⟩

/-- Claim C5 counterexample: on the concrete fixture with timestamps
2020-01-01, 2020-01-11 and 2020-04-10 the consecutive gaps are 10 and 90
days, so the analyzer yields an average interval of 50.0, not the 55.0
the claim states (55 is the mean of the day offsets 10 and 100, not of
the gaps); the maximum gap 90 and years_covered 1 do match. -/
theorem analyzer_concrete_avg_cex :
    (get_domain_history_summary true (.snapshots
      [⟨"20200101000000", none⟩, ⟨"20200111000000", none⟩,
        ⟨"20200410000000", none⟩])).avg_interval_days = some 50 ∧
    (50 : ℚ) ≠ 55 ∧
    (get_domain_history_summary true (.snapshots
      [⟨"20200101000000", none⟩, ⟨"20200111000000", none⟩,
        ⟨"20200410000000", none⟩])).max_gap_days = some 90 ∧
    (get_domain_history_summary true (.snapshots
      [⟨"20200101000000", none⟩, ⟨"20200111000000", none⟩,
        ⟨"20200410000000", none⟩])).years_covered = some 1 := by
  decide

/-- Claim C5 (amended), general part and corrected fixture: the analyzer
sorts the parseable timestamps ascending (the sorted seconds are a sorted
permutation of the parsed ones); with fewer than two parseable snapshots
both gap metrics are null; with at least two, avg_interval_days is the
mean of the consecutive gaps rounded to two decimals and max_gap_days
their maximum; and the concrete fixture 2020-01-01, 2020-01-11,
2020-04-10 yields average 50.0, maximum gap 90 and one year covered. -/
theorem analyzer_gap_metrics :
    (∀ snaps : List Snapshot,
      List.Sorted (fun a b => a ≤ b) (sortedParsedSeconds snaps) ∧
      (sortedParsedSeconds snaps).Perm ((parsedDates snaps).map DateTime14.toSeconds)) ∧
    (∀ snaps : List Snapshot, (parsedDates snaps).length < 2 →
      (get_domain_history_summary true (.snapshots snaps)).avg_interval_days = none ∧
      (get_domain_history_summary true (.snapshots snaps)).max_gap_days = none) ∧
    (∀ snaps : List Snapshot, 2 ≤ (parsedDates snaps).length →
      (get_domain_history_summary true (.snapshots snaps)).avg_interval_days =
        some (pyRound2 (mkRat (gapList snaps).sum (gapList snaps).length)) ∧
      (get_domain_history_summary true (.snapshots snaps)).max_gap_days =
        listMaxInt (gapList snaps)) ∧
    ((get_domain_history_summary true (.snapshots
        [⟨"20200101000000", none⟩, ⟨"20200111000000", none⟩,
          ⟨"20200410000000", none⟩])).avg_interval_days = some 50 ∧
      (get_domain_history_summary true (.snapshots
        [⟨"20200101000000", none⟩, ⟨"20200111000000", none⟩,
          ⟨"20200410000000", none⟩])).max_gap_days = some 90 ∧
      (get_domain_history_summary true (.snapshots
        [⟨"20200101000000", none⟩, ⟨"20200111000000", none⟩,
          ⟨"20200410000000", none⟩])).years_covered = some 1) := by
  refine ⟨?_, ?_, ?_, by decide⟩
  · intro snaps
    constructor
    · have hs := List.sorted_insertionSort (fun a b : DateTime14 => a.toSeconds ≤ b.toSeconds)
        (parsedDates snaps)
      simp only [sortedParsedSeconds, sortedParsedDates]
      exact List.Pairwise.map DateTime14.toSeconds (fun a b h => h) hs
    · exact (List.perm_insertionSort _ (parsedDates snaps)).map DateTime14.toSeconds
  · intro snaps hlt
    have hgap : gapList snaps = [] := by
      apply consecutiveGaps_eq_nil
      have h1 : (sortedParsedSeconds snaps).length = (parsedDates snaps).length := by
        simp [sortedParsedSeconds, sortedParsedDates, List.length_insertionSort]
      omega
    cases snaps with
    | nil => exact ⟨rfl, rfl⟩
    | cons a l =>
      unfold get_domain_history_summary blocking_cdx_api_check
      simp [hgap, buildSummary, listMaxInt, emptySummary]
  · intro snaps hge
    have hlen : (gapList snaps).length = (parsedDates snaps).length - 1 := by
      have h1 : (sortedParsedSeconds snaps).length = (parsedDates snaps).length := by
        simp [sortedParsedSeconds, sortedParsedDates, List.length_insertionSort]
      simp [gapList, consecutiveGaps_length, h1]
    have hne : (gapList snaps).isEmpty = false := by
      have : (gapList snaps).length ≠ 0 := by omega
      cases hg : gapList snaps with
      | nil => exact absurd (by simp [hg]) this
      | cons x xs => rfl
    cases snaps with
    | nil => simp [parsedDates] at hge
    | cons a l =>
      unfold get_domain_history_summary blocking_cdx_api_check
      simp [hne, buildSummary, emptySummary]

/-- Claim C7 counterexample: a history in which every timestamp is
malformed is not treated as empty: has_snapshot is true and
total_snapshots counts the raw records, instead of the false and
null/zero fields the claim states. -/
theorem all_malformed_cex :
    (get_domain_history_summary true (.snapshots
      [⟨"bad-ts-1", none⟩, ⟨"bad-ts-2", some "DIGEST"⟩])).has_snapshot = true ∧
    (get_domain_history_summary true (.snapshots
      [⟨"bad-ts-1", none⟩, ⟨"bad-ts-2", some "DIGEST"⟩])).total_snapshots = 2 := by
  decide

/-- Claim C7 (amended): malformed timestamps are skipped without failing
the computation, but a fully malformed non-empty history is not treated
as empty: has_snapshot is true, total_snapshots is the raw record count,
the gap metrics are null, years_covered and unique_versions are zero, no
error is reported, and is_good and recommended are false. -/
theorem all_malformed_not_empty (snaps : List Snapshot) (hne : snaps ≠ [])
    (hbad : ∀ s ∈ snaps, strptime14 s.timestamp = none) :
    (get_domain_history_summary true (.snapshots snaps)).has_snapshot = true ∧
    (get_domain_history_summary true (.snapshots snaps)).total_snapshots = snaps.length ∧
    (get_domain_history_summary true (.snapshots snaps)).avg_interval_days = none ∧
    (get_domain_history_summary true (.snapshots snaps)).max_gap_days = none ∧
    (get_domain_history_summary true (.snapshots snaps)).years_covered = some 0 ∧
    (get_domain_history_summary true (.snapshots snaps)).unique_versions = some 0 ∧
    (get_domain_history_summary true (.snapshots snaps)).error = none ∧
    (get_domain_history_summary true (.snapshots snaps)).is_good = false ∧
    (get_domain_history_summary true (.snapshots snaps)).recommended = false := by
  have hp : parsedDates snaps = [] := parsedDates_eq_nil hbad
  have hd : digestsList snaps = [] := by
    apply digestsList_eq_nil
    intro s hs
    simp [hbad s hs]
  have hgap : gapList snaps = [] := by
    simp [gapList, sortedParsedSeconds, sortedParsedDates, hp, List.insertionSort, consecutiveGaps]
  have hy : yearsList snaps = [] := by
    simp [yearsList, sortedParsedDates, hp, List.insertionSort]
  cases snaps with
  | nil => exact absurd rfl hne
  | cons a l =>
    unfold get_domain_history_summary blocking_cdx_api_check
    simp [hgap, hy, hd, buildSummary, listMaxInt, emptySummary]

/-- Claim C8 counterexample: for a non-empty history none of whose
snapshots carries a fingerprint, unique_versions is reported as zero, not
as the unknown null the claim states. -/
theorem unique_versions_zero_cex :
    (get_domain_history_summary true (.snapshots
      [⟨"20200101000000", none⟩])).unique_versions = some 0 ∧
    (get_domain_history_summary true (.snapshots
      [⟨"20200101000000", none⟩])).unique_versions ≠ none := by
  decide

/-- Claim C8 (amended): for every non-empty snapshot list,
unique_versions equals the number of distinct fingerprints among the
snapshots whose timestamps parse, and when no snapshot contributes a
fingerprint it is zero, not null; it is null only when the fetch fails or
the snapshot list is empty. -/
theorem unique_versions_counts_digests (snaps : List Snapshot) (hne : snaps ≠ []) :
    (get_domain_history_summary true (.snapshots snaps)).unique_versions =
      some ((digestsList snaps).dedup.length) ∧
    ((∀ s ∈ snaps, s.digest = none) →
      (get_domain_history_summary true (.snapshots snaps)).unique_versions = some 0) := by
  cases snaps with
  | nil => exact absurd rfl hne
  | cons a l =>
    constructor
    · unfold get_domain_history_summary blocking_cdx_api_check
      simp [buildSummary]
    · intro hnd
      have hd : digestsList (a :: l) = [] := by
        apply digestsList_eq_nil
        intro s hs
        simp [hnd s hs]
      unfold get_domain_history_summary blocking_cdx_api_check
      simp [hd, buildSummary]

/-- Progress updates only touch the message and the timestamp: every
intermediate state keeps the status, results and submitted domains of the
state the loop started from. -/
theorem progressStates_status : ∀ (n : Nat) (cur : TaskRecord) (i : Nat)
    (ds : List (String × DomainOutcome)) (st : TaskRecord),
    st ∈ progressStates n cur i ds →
    st.status = cur.status ∧ st.results = cur.results ∧
      st.domains_submitted = cur.domains_submitted
  | _, _, _, [], _, h => by simp [progressStates] at h
  | n, cur, i, (nm, o) :: rest, st, h => by
    simp only [progressStates, List.mem_cons] at h
    rcases h with rfl | h
    · exact ⟨rfl, rfl, rfl⟩
    · have ih := progressStates_status n
        { cur with message := progressMsg i n nm, updated_at := cur.updated_at + 1 }
        (i + 1) rest st h
      exact ⟨ih.1, ih.2.1, ih.2.2⟩

/-- The state the loop is in after the last progress update keeps the
status and submitted domains it started from. -/
theorem progressStates_getLastD : ∀ (n : Nat) (cur : TaskRecord) (i : Nat)
    (ds : List (String × DomainOutcome)),
    ((progressStates n cur i ds).getLastD cur).status = cur.status ∧
    ((progressStates n cur i ds).getLastD cur).domains_submitted = cur.domains_submitted
  | _, _, _, [] => ⟨rfl, rfl⟩
  | n, cur, i, (nm, o) :: rest => by
    have ih := progressStates_getLastD n
      { cur with message := progressMsg i n nm, updated_at := cur.updated_at + 1 }
      (i + 1) rest
    simp only [progressStates, List.getLastD_cons]
    exact ⟨ih.1, ih.2⟩

/-- Claim C1: the background run ends with the task COMPLETED, carrying
exactly one result per submitted domain in submission order, and a domain
whose processing raised is represented by a result whose summary is the
error dict, without preventing completion. -/
theorem background_run_completes (task0 : TaskRecord)
    (domains : List (String × DomainOutcome)) (_hne : domains ≠ [])
    (hnames : task0.domains_submitted = domains.map Prod.fst) :
    (run_domain_analysis_background task0 domains).status = .completed ∧
    (run_domain_analysis_background task0 domains).results =
      domains.map (fun p => resultForDomain p.1 p.2) ∧
    (run_domain_analysis_background task0 domains).results.length =
      (run_domain_analysis_background task0 domains).domains_submitted.length ∧
    (∀ name msg, (resultForDomain name (.raised msg)).wayback_history_summary =
      some (.errorDict ("Failed to process: " ++ msg))) := by
  have hrun : run_domain_analysis_background task0 domains =
      finishState
        ((progressStates domains.length (startState task0) 0 domains).getLastD
          (startState task0))
        (domains.map fun p => resultForDomain p.1 p.2) := by
    unfold run_domain_analysis_background taskLifecycleStates
    rw [List.getLastD_concat]
  rw [hrun]
  have hfields := progressStates_getLastD domains.length (startState task0) 0 domains
  refine ⟨rfl, rfl, ?_, fun name msg => rfl⟩
  show (List.map (fun p => resultForDomain p.1 p.2) domains).length =
    ((progressStates domains.length (startState task0) 0 domains).getLastD
      (startState task0)).domains_submitted.length
  rw [hfields.2]
  simp [startState, hnames]

/-- Claim C10: every state of a task created by submission and driven by
the background run has status PENDING, PROCESSING or COMPLETED: nothing
assigns FAILED, which is only ever read by the stream loop, so the FAILED
terminal state is unreachable. -/
theorem failed_status_unreachable (task_id : String) (now : Nat)
    (domains : List (String × DomainOutcome)) (st : TaskRecord)
    (hst : st ∈ taskLifecycleStates
      (create_analysis_task task_id now (domains.map Prod.fst)) domains) :
    (st.status = .pending ∨ st.status = .processing ∨ st.status = .completed) ∧
      st.status ≠ .failed := by
  have main : st.status = .pending ∨ st.status = .processing ∨ st.status = .completed := by
    unfold taskLifecycleStates at hst
    simp only [List.mem_append, List.mem_cons, List.mem_singleton, List.not_mem_nil,
      or_false] at hst
    rcases hst with (rfl | rfl | h) | rfl
    · exact Or.inl rfl
    · exact Or.inr (Or.inl rfl)
    · exact Or.inr (Or.inl (progressStates_status _ _ _ _ _ h).1)
    · exact Or.inr (Or.inr rfl)
  refine ⟨main, ?_⟩
  rcases main with h | h | h <;> rw [h] <;> decide

/-- Under the scenario in which only the final polled snapshot is
terminal, the event stream is the data events followed by exactly one
complete event. -/
theorem sse_shape : ∀ (body : List StatusView) (last : Option StatusView) (t : StatusView),
    (∀ v ∈ body, v.status.isTerminal = false) → t.status.isTerminal = true →
    sseEvents last (body ++ [t]) =
      (emittedViews last (body ++ [t])).map SseEvent.data ++ [SseEvent.complete t]
  | [], last, t, _, ht => by
    by_cases h : last = some t <;> simp [sseEvents, emittedViews, ht, h]
  | v :: body, last, t, hbody, ht => by
    have hv : v.status.isTerminal = false := hbody v (List.mem_cons_self v body)
    have ih := sse_shape body (some v) t
      (fun w hw => hbody w (List.mem_cons_of_mem v hw)) ht
    by_cases h : last = some v <;> simp [sseEvents, emittedViews, hv, h, ih]

/-- The emitted snapshots are the consecutive-duplicate collapse of the
polled snapshots. -/
theorem emittedViews_eq_dedupConsFrom :
    ∀ (body : List StatusView) (last : Option StatusView) (t : StatusView),
    (∀ v ∈ body, v.status.isTerminal = false) →
    emittedViews last (body ++ [t]) = dedupConsFrom last (body ++ [t])
  | [], last, t, _ => by
    by_cases h : last = some t <;>
      by_cases ht : t.status.isTerminal <;>
        simp [emittedViews, dedupConsFrom, h, ht]
  | v :: body, last, t, hbody => by
    have hv : v.status.isTerminal = false := hbody v (List.mem_cons_self v body)
    have ih := emittedViews_eq_dedupConsFrom body (some v) t
      (fun w hw => hbody w (List.mem_cons_of_mem v hw))
    by_cases h : last = some v <;> simp [emittedViews, dedupConsFrom, h, hv, ih]

/-- The head of a seeded collapse differs from the seed. -/
theorem dedupConsFrom_head_ne :
    ∀ (l : List StatusView) (w h : StatusView) (ts : List StatusView),
    dedupConsFrom (some w) l = h :: ts → h ≠ w
  | [], w, h, ts, heq => by simp [dedupConsFrom] at heq
  | v :: rest, w, h, ts, heq => by
    by_cases hw : w = v
    · subst hw
      simp only [dedupConsFrom, if_pos rfl] at heq
      exact dedupConsFrom_head_ne rest w h ts heq
    · rw [dedupConsFrom, if_neg (fun hc => hw (Option.some.inj hc))] at heq
      injection heq with h1 h2
      exact fun hc => hw ((h1.trans hc).symm)

/-- Consecutive emitted snapshots always differ. -/
theorem consecDistinct_dedupConsFrom :
    ∀ (l : List StatusView) (last : Option StatusView),
    consecDistinct (dedupConsFrom last l) = true
  | [], _ => rfl
  | v :: rest, last => by
    by_cases h : last = some v
    · simp only [dedupConsFrom, if_pos h]
      exact consecDistinct_dedupConsFrom rest (some v)
    · simp only [dedupConsFrom, if_neg h]
      have ih := consecDistinct_dedupConsFrom rest (some v)
      cases hr : dedupConsFrom (some v) rest with
      | nil => rfl
      | cons x xs =>
        have hx : x ≠ v := dedupConsFrom_head_ne rest v x xs hr
        rw [hr] at ih
        have hvx : (v == x) = false := beq_eq_false_iff_ne.mpr (Ne.symm hx)
        simp [consecDistinct, hvx, ih]

/-- Every polled snapshot either survives the seeded collapse or equals
the seed. -/
theorem mem_dedupConsFrom :
    ∀ (l : List StatusView) (w x : StatusView),
    x ∈ l → x ∈ dedupConsFrom (some w) l ∨ x = w
  | [], _, _, hx => by simp at hx
  | v :: rest, w, x, hx => by
    by_cases h : w = v
    · subst h
      simp only [dedupConsFrom, if_pos rfl]
      rcases List.mem_cons.mp hx with rfl | hx2
      · exact Or.inr rfl
      · exact mem_dedupConsFrom rest w x hx2
    · simp only [dedupConsFrom, if_neg (fun hc => h (Option.some.inj hc))]
      rcases List.mem_cons.mp hx with rfl | hx2
      · exact Or.inl (List.mem_cons_self _ _)
      · rcases mem_dedupConsFrom rest v x hx2 with h2 | rfl
        · exact Or.inl (List.mem_cons_of_mem v h2)
        · exact Or.inl (List.mem_cons_self _ _)

/-- Everything the collapse keeps was polled. -/
theorem dedupConsFrom_subset :
    ∀ (l : List StatusView) (last : Option StatusView) (x : StatusView),
    x ∈ dedupConsFrom last l → x ∈ l
  | [], _, _, hx => by simp [dedupConsFrom] at hx
  | v :: rest, last, x, hx => by
    by_cases h : last = some v
    · simp only [dedupConsFrom, if_pos h] at hx
      exact List.mem_cons_of_mem v (dedupConsFrom_subset rest (some v) x hx)
    · simp only [dedupConsFrom, if_neg h] at hx
      rcases List.mem_cons.mp hx with rfl | hx2
      · exact List.mem_cons_self _ _
      · exact List.mem_cons_of_mem v (dedupConsFrom_subset rest (some v) x hx2)

/-- The collapse keeps exactly the set of polled snapshots. -/
theorem mem_dedupCons (l : List StatusView) (x : StatusView) :
    x ∈ dedupCons l ↔ x ∈ l := by
  constructor
  · exact dedupConsFrom_subset l none x
  · intro hx
    cases l with
    | nil => simp at hx
    | cons v rest =>
      unfold dedupCons
      simp only [dedupConsFrom, if_neg (fun hc : (none : Option StatusView) = some v =>
        Option.noConfusion hc)]
      rcases List.mem_cons.mp hx with rfl | hx2
      · exact List.mem_cons_self _ _
      · rcases mem_dedupConsFrom rest v x hx2 with h2 | rfl
        · exact List.mem_cons_of_mem v h2
        · exact List.mem_cons_self _ _

/-- When no snapshot recurs after a change, the number of emitted
snapshots is the number of distinct snapshots polled. -/
theorem dedupCons_nodup_length (l : List StatusView) (h : (dedupCons l).Nodup) :
    (dedupCons l).length = l.dedup.length := by
  have hfin : (dedupCons l).toFinset = l.toFinset := by
    ext x
    simp [List.mem_toFinset, mem_dedupCons]
  calc (dedupCons l).length = (dedupCons l).toFinset.card :=
        (List.toFinset_card_of_nodup h).symm
    _ = l.toFinset.card := by rw [hfin]
    _ = l.dedup.length := List.card_toFinset l

/-- Claim C9: for a poll sequence whose only terminal snapshot is the
final COMPLETED one, the stream consists of one data event per
consecutive change (each emitted snapshot differs from the previously
emitted one), followed by exactly one complete-tagged final event after
which the stream closes; and when no status/message snapshot recurs after
changing, the number of data events equals the number of distinct
snapshots observed. -/
theorem sse_stream_events (body : List StatusView) (t : StatusView)
    (hbody : ∀ v ∈ body, v.status.isTerminal = false)
    (ht : t.status.isTerminal = true) :
    sseEvents none (body ++ [t]) =
      (dedupCons (body ++ [t])).map SseEvent.data ++ [SseEvent.complete t] ∧
    consecDistinct (dedupCons (body ++ [t])) = true ∧
    ((dedupCons (body ++ [t])).Nodup →
      (dedupCons (body ++ [t])).length = (body ++ [t]).dedup.length) := by
  refine ⟨?_, consecDistinct_dedupConsFrom _ none, fun hnd => dedupCons_nodup_length _ hnd⟩
  rw [sse_shape body none t hbody ht, emittedViews_eq_dedupConsFrom body none t hbody]
  rfl

/-- Witness for claim C1 at a concrete two-domain task, one domain
succeeding with an empty history and one raising. -/
theorem background_run_completes_witness :
    (run_domain_analysis_background (create_analysis_task "task-1" 0 ["a.example", "b.example"])
      [("a.example", DomainOutcome.success (get_domain_history_summary true (.snapshots []))
          (.errorDict "OpenRouter API key not configured. Skipping thematic analysis.")),
       ("b.example", DomainOutcome.raised "boom")]).status = .completed ∧
    (run_domain_analysis_background (create_analysis_task "task-1" 0 ["a.example", "b.example"])
      [("a.example", DomainOutcome.success (get_domain_history_summary true (.snapshots []))
          (.errorDict "OpenRouter API key not configured. Skipping thematic analysis.")),
       ("b.example", DomainOutcome.raised "boom")]).results =
      [("a.example", DomainOutcome.success (get_domain_history_summary true (.snapshots []))
          (.errorDict "OpenRouter API key not configured. Skipping thematic analysis.")),
       ("b.example", DomainOutcome.raised "boom")].map (fun p => resultForDomain p.1 p.2) ∧
    (run_domain_analysis_background (create_analysis_task "task-1" 0 ["a.example", "b.example"])
      [("a.example", DomainOutcome.success (get_domain_history_summary true (.snapshots []))
          (.errorDict "OpenRouter API key not configured. Skipping thematic analysis.")),
       ("b.example", DomainOutcome.raised "boom")]).results.length =
      (run_domain_analysis_background (create_analysis_task "task-1" 0 ["a.example", "b.example"])
        [("a.example", DomainOutcome.success (get_domain_history_summary true (.snapshots []))
            (.errorDict "OpenRouter API key not configured. Skipping thematic analysis.")),
         ("b.example", DomainOutcome.raised "boom")]).domains_submitted.length ∧
    (∀ name msg, (resultForDomain name (.raised msg)).wayback_history_summary =
      some (.errorDict ("Failed to process: " ++ msg))) :=
  background_run_completes (create_analysis_task "task-1" 0 ["a.example", "b.example"])
    [("a.example", DomainOutcome.success (get_domain_history_summary true (.snapshots []))
        (.errorDict "OpenRouter API key not configured. Skipping thematic analysis.")),
     ("b.example", DomainOutcome.raised "boom")] (by decide) rfl

/-- Witness for claim C10 at the initial record of a concrete one-domain
task. -/
theorem failed_status_unreachable_witness :
    ((create_analysis_task "task-1" 0 ["a.example"]).status = .pending ∨
      (create_analysis_task "task-1" 0 ["a.example"]).status = .processing ∨
      (create_analysis_task "task-1" 0 ["a.example"]).status = .completed) ∧
    (create_analysis_task "task-1" 0 ["a.example"]).status ≠ .failed :=
  failed_status_unreachable "task-1" 0 [("a.example", DomainOutcome.raised "boom")]
    (create_analysis_task "task-1" 0 ["a.example"]) (by decide)

/-- Witness for claim C9 on the concrete poll sequence PENDING,
PROCESSING, PROCESSING with a progress message, COMPLETED. -/
theorem sse_stream_events_witness :
    sseEvents none
        (([⟨.pending, "queued", 0⟩, ⟨.processing, "started", 1⟩,
          ⟨.processing, "domain 1 of 1", 2⟩] : List StatusView) ++
          [(⟨.completed, "done", 3⟩ : StatusView)]) =
      (dedupCons (([⟨.pending, "queued", 0⟩, ⟨.processing, "started", 1⟩,
          ⟨.processing, "domain 1 of 1", 2⟩] : List StatusView) ++
          [(⟨.completed, "done", 3⟩ : StatusView)])).map SseEvent.data ++
        [SseEvent.complete (⟨.completed, "done", 3⟩ : StatusView)] ∧
    consecDistinct (dedupCons (([⟨.pending, "queued", 0⟩, ⟨.processing, "started", 1⟩,
        ⟨.processing, "domain 1 of 1", 2⟩] : List StatusView) ++
        [(⟨.completed, "done", 3⟩ : StatusView)])) = true ∧
    ((dedupCons (([⟨.pending, "queued", 0⟩, ⟨.processing, "started", 1⟩,
        ⟨.processing, "domain 1 of 1", 2⟩] : List StatusView) ++
        [(⟨.completed, "done", 3⟩ : StatusView)])).Nodup →
      (dedupCons (([⟨.pending, "queued", 0⟩, ⟨.processing, "started", 1⟩,
          ⟨.processing, "domain 1 of 1", 2⟩] : List StatusView) ++
          [(⟨.completed, "done", 3⟩ : StatusView)])).length =
        (([⟨.pending, "queued", 0⟩, ⟨.processing, "started", 1⟩,
          ⟨.processing, "domain 1 of 1", 2⟩] : List StatusView) ++
          [(⟨.completed, "done", 3⟩ : StatusView)]).dedup.length) :=
  sse_stream_events
    ([⟨.pending, "queued", 0⟩, ⟨.processing, "started", 1⟩,
      ⟨.processing, "domain 1 of 1", 2⟩] : List StatusView)
    (⟨.completed, "done", 3⟩ : StatusView) (by decide) (by decide)

/-- Witness for claim C5: the fewer-than-two case at a malformed single
snapshot and the general formula at the three-snapshot fixture. -/
theorem analyzer_gap_metrics_witness :
    ((get_domain_history_summary true (.snapshots [⟨"bad-ts", none⟩])).avg_interval_days = none ∧
      (get_domain_history_summary true (.snapshots [⟨"bad-ts", none⟩])).max_gap_days = none) ∧
    ((get_domain_history_summary true (.snapshots
        [⟨"20200101000000", none⟩, ⟨"20200111000000", none⟩,
          ⟨"20200410000000", none⟩])).avg_interval_days =
      some (pyRound2 (mkRat
        (gapList [⟨"20200101000000", none⟩, ⟨"20200111000000", none⟩,
          ⟨"20200410000000", none⟩]).sum
        (gapList [⟨"20200101000000", none⟩, ⟨"20200111000000", none⟩,
          ⟨"20200410000000", none⟩]).length)) ∧
      (get_domain_history_summary true (.snapshots
        [⟨"20200101000000", none⟩, ⟨"20200111000000", none⟩,
          ⟨"20200410000000", none⟩])).max_gap_days =
        listMaxInt (gapList [⟨"20200101000000", none⟩, ⟨"20200111000000", none⟩,
          ⟨"20200410000000", none⟩])) :=
  ⟨analyzer_gap_metrics.2.1 [⟨"bad-ts", none⟩] (by decide),
   analyzer_gap_metrics.2.2.1
     [⟨"20200101000000", none⟩, ⟨"20200111000000", none⟩, ⟨"20200410000000", none⟩]
     (by decide)⟩

/-- Witness for claim C7 at a concrete fully malformed two-snapshot
history. -/
theorem all_malformed_not_empty_witness :
    (get_domain_history_summary true (.snapshots
      [⟨"bad-ts-1", none⟩, ⟨"bad-ts-2", some "DIGEST"⟩])).has_snapshot = true ∧
    (get_domain_history_summary true (.snapshots
      [⟨"bad-ts-1", none⟩, ⟨"bad-ts-2", some "DIGEST"⟩])).total_snapshots =
      ([⟨"bad-ts-1", none⟩, ⟨"bad-ts-2", some "DIGEST"⟩] : List Snapshot).length ∧
    (get_domain_history_summary true (.snapshots
      [⟨"bad-ts-1", none⟩, ⟨"bad-ts-2", some "DIGEST"⟩])).avg_interval_days = none ∧
    (get_domain_history_summary true (.snapshots
      [⟨"bad-ts-1", none⟩, ⟨"bad-ts-2", some "DIGEST"⟩])).max_gap_days = none ∧
    (get_domain_history_summary true (.snapshots
      [⟨"bad-ts-1", none⟩, ⟨"bad-ts-2", some "DIGEST"⟩])).years_covered = some 0 ∧
    (get_domain_history_summary true (.snapshots
      [⟨"bad-ts-1", none⟩, ⟨"bad-ts-2", some "DIGEST"⟩])).unique_versions = some 0 ∧
    (get_domain_history_summary true (.snapshots
      [⟨"bad-ts-1", none⟩, ⟨"bad-ts-2", some "DIGEST"⟩])).error = none ∧
    (get_domain_history_summary true (.snapshots
      [⟨"bad-ts-1", none⟩, ⟨"bad-ts-2", some "DIGEST"⟩])).is_good = false ∧
    (get_domain_history_summary true (.snapshots
      [⟨"bad-ts-1", none⟩, ⟨"bad-ts-2", some "DIGEST"⟩])).recommended = false :=
  all_malformed_not_empty [⟨"bad-ts-1", none⟩, ⟨"bad-ts-2", some "DIGEST"⟩]
    (by decide) (by decide)

/-- Witness for claim C8 at a concrete one-snapshot history without a
fingerprint. -/
theorem unique_versions_counts_digests_witness :
    (get_domain_history_summary true (.snapshots
      [⟨"20200101000000", none⟩])).unique_versions =
      some ((digestsList [⟨"20200101000000", none⟩]).dedup.length) ∧
    ((∀ s ∈ ([⟨"20200101000000", none⟩] : List Snapshot), s.digest = none) →
      (get_domain_history_summary true (.snapshots
        [⟨"20200101000000", none⟩])).unique_versions = some 0) :=
  unique_versions_counts_digests [⟨"20200101000000", none⟩] (by decide)

end DropAnalyzer

